import Mathlib

/-!
Verification of the lazyests repository (a browser-piggybacking HTTP client
with a TTL response cache and a manual login handoff) against its
natural-language specification.

The development shallow-embeds the Python source:
* `cache.py`   — `RequestCache.generate_key / get / _validate_data / set /
  clear_expired / clear_all`;
* `client.py`  — `Client.request`, `Client._exec_fetch`, `Client.wait_for_login`,
  `Client._restart_browser` and the cookie sanitization inside the handoff;
* `response.py` — `Response.ok`.

Modelling conventions:
* Python JSON values are modelled by `JVal` (null, bool, number, string,
  string-to-string map).  Rational numbers stand for Python ints/floats.
* `time.time()` values and TTLs are rationals, passed explicitly.
* `json.dumps(-, sort_keys=True)` is modelled by `dumps` (keys sorted,
  Python's default `", "` / `": "` separators; string escaping is elided,
  so the model covers strings without characters needing JSON escapes).
* The SHA-256 hex digest applied at the end of `generate_key` is modelled
  as the identity on the raw pre-image string: the digest is a fixed
  injective-up-to-collisions function of the raw string, so equality and
  inequality of fingerprints are decided at the raw-string level.
* `str.upper()` is modelled for ASCII by `pyUpper`.
* The SQLite store is modelled as an association list of
  `(key, value, expires_at)` rows; the JSON round-trip through the `value`
  column (`json.dumps` on `set`, `json.loads` on `get`) is modelled as the
  identity on the stored dictionary.
-/

/-- Model of a Python JSON value as produced/consumed by the library.
`strMap` covers the string-to-string maps used for headers; deeper nesting
is not needed by any code path under verification. -/
inductive JVal where
  | null : JVal
  | b (v : Bool) : JVal
  | n (v : ℚ) : JVal
  | s (v : String) : JVal
  | strMap (v : List (String × String)) : JVal
deriving DecidableEq

/-- A Python `dict[str, ...]` as an association list (keys unique in source). -/
abbrev JDict := List (String × JVal)

/-- Dictionary lookup, `d.get(k)` / `d[k]`: first entry with the given key. -/
def lookupKV (d : JDict) (k : String) : Option JVal :=
  (d.find? (fun kv => kv.1 == k)).map (fun kv => kv.2)

/-- JSON string serialization (escaping elided: modelled for escape-free text). -/
def dumpStr (v : String) : String :=
  "\"" ++ v ++ "\""

/-- Insertion step of the key sort performed by `json.dumps(-, sort_keys=True)`. -/
def insertByKey (e : String × String) : List (String × String) → List (String × String)
  | [] => [e]
  | x :: xs => if e.1 ≤ x.1 then e :: x :: xs else x :: insertByKey e xs

/-- Sort entries by key (insertion sort), as `sort_keys=True` does. -/
def sortByKey : List (String × String) → List (String × String)
  | [] => []
  | x :: xs => insertByKey x (sortByKey xs)

/-- Serialize an object whose values are already serialized, with sorted keys
and Python's default separators. -/
def dumpObj (entries : List (String × String)) : String :=
  "\x7b" ++ String.intercalate ", "
      ((sortByKey entries).map (fun kv => dumpStr kv.1 ++ ": " ++ kv.2)) ++ "\x7d"

/-- Serialize a single JSON value. -/
def dumpJVal : JVal → String
  | .null => "null"
  | .b true => "true"
  | .b false => "false"
  | .n q => toString q
  | .s v => dumpStr v
  | .strMap m => dumpObj (m.map (fun kv => (kv.1, dumpStr kv.2)))

/-- Model of `json.dumps(d, sort_keys=True)` on a dictionary. -/
def dumps (d : JDict) : String :=
  dumpObj (d.map (fun kv => (kv.1, dumpJVal kv.2)))

/-- ASCII model of `str.upper()` on one character. -/
def pyCharUpper (c : Char) : Char :=
  if 97 ≤ c.toNat ∧ c.toNat ≤ 122 then Char.ofNat (c.toNat - 32) else c

/-- ASCII model of Python's `str.upper()`. -/
def pyUpper (s : String) : String :=
  ⟨s.data.map pyCharUpper⟩

/-- Model of the truthiness-guarded serialization in `generate_key`:
`json.dumps(x, sort_keys=True) if x else ""` — both `None` and the empty
dict are falsy and serialize to the empty string. -/
def normSer : Option JDict → String
  | none => ""
  | some d => if d.isEmpty then "" else dumps d

/-- Embedding of `RequestCache.generate_key` (cache.py).  Normalizes each
structured input, concatenates `METHOD|url|params|data|json` and applies the
digest (modelled as the identity on the raw string, see header). -/
def generate_key (method url : String) (params data json_data : Option JDict) : String :=
  pyUpper method ++ "|" ++ url ++ "|" ++ normSer params ++ "|" ++ normSer data
    ++ "|" ++ normSer json_data

/-- A string that does not contain the fingerprint delimiter. -/
def pipeFree (s : String) : Prop := '|' ∉ s.data

instance (s : String) : Decidable (pipeFree s) := by
  unfold pipeFree; infer_instance

/-- The seven mandatory ResponseRecord keys (`RequestCache.REQUIRED_KEYS`,
also `required_keys` in `Client._validate_fetch_response`). -/
def requiredKeys : List String :=
  ["status", "statusText", "url", "headers", "text", "redirected", "type"]

/-- Executable form of `REQUIRED_KEYS.issubset(data.keys())`. -/
def validBool (d : JDict) : Bool :=
  requiredKeys.all (fun k => d.any (fun kv => kv.1 == k))

/-- Embedding of `RequestCache._validate_data` (cache.py): the loaded value is
returned only when every required key is present, else it is treated as
absent.  (The `isinstance(data, dict)` guard is discharged by the `JDict`
type of the model.) -/
def validate_data (d : JDict) : Option JDict :=
  if validBool d then some d else none

/-- One row of the `cache` table: `(key, value, expires_at)`. -/
abbrev CacheEntry := String × JDict × ℚ

/-- The `cache` table. -/
abbrev CacheState := List CacheEntry

/-- `SELECT value, expires_at FROM cache WHERE key = ?`. -/
def findEntry (s : CacheState) (k : String) : Option (JDict × ℚ) :=
  (s.find? (fun e => e.1 == k)).map (fun e => e.2)

/-- `DELETE FROM cache WHERE key = ?`. -/
def deleteKey (s : CacheState) (k : String) : CacheState :=
  s.filter (fun e => !(e.1 == k))

/-- Embedding of `RequestCache.get` (cache.py).  Returns the validated value
(or `none`) together with the store after the lookup: a present-but-expired
entry (`¬ now < expires_at`) is deleted as part of the same lookup; an entry
that is unexpired but structurally invalid is treated as absent without
deletion. -/
def cacheGet (s : CacheState) (now : ℚ) (k : String) : Option JDict × CacheState :=
  match findEntry s k with
  | none => (none, s)
  | some (v, expiresAt) =>
      if now < expiresAt then (validate_data v, s)
      else (none, deleteKey s k)

/-- Embedding of `RequestCache.set` (cache.py): `expires_at = time.time() + ttl`
with `INSERT OR REPLACE` semantics. -/
def cacheSet (s : CacheState) (now : ℚ) (k : String) (v : JDict) (ttl : ℚ) : CacheState :=
  (k, v, now + ttl) :: deleteKey s k

/-- Embedding of `RequestCache.clear_expired` (cache.py):
`DELETE FROM cache WHERE expires_at < now`. -/
def clear_expired (s : CacheState) (now : ℚ) : CacheState :=
  s.filter (fun e => !(e.2.2 < now))

/-- Embedding of `RequestCache.clear_all` (cache.py): `DELETE FROM cache`. -/
def clear_all (_ : CacheState) : CacheState :=
  []

/-- The typed `FetchResponseData` record (schemas.py): all seven fields. -/
structure FetchResponseData where
  status : Int
  statusText : String
  url : String
  headers : List (String × String)
  text : String
  redirected : Bool
  type : String

/-- The dictionary shape in which a `FetchResponseData` is stored and
transported (the object literal built by the fetch script in client.py). -/
def toDict (r : FetchResponseData) : JDict :=
  [("status", .n r.status),
   ("statusText", .s r.statusText),
   ("url", .s r.url),
   ("headers", .strMap r.headers),
   ("text", .s r.text),
   ("redirected", .b r.redirected),
   ("type", .s r.type)]

/-- Python exception values raised by `Client._exec_fetch`: `RuntimeError`
(JS execution error, fetch failure, structural mismatch) and `TimeoutError`
(abort on deadline). -/
inductive PyError where
  | runtimeError (msg : String) : PyError
  | timeoutError (msg : String) : PyError
deriving DecidableEq

/-- The exception *kind* (class), as a Python `except` clause sees it —
deliberately without the message string. -/
inductive PyKind where
  | runtime : PyKind
  | timeout : PyKind
deriving DecidableEq

/-- Kind of the outcome of a fetch: `none` on success. -/
def kindOf : Except PyError JDict → Option PyKind
  | .error (.runtimeError _) => some .runtime
  | .error (.timeoutError _) => some .timeout
  | .ok _ => none

/-- Prefix test on character lists (for the substring check below). -/
def leadsWith : List Char → List Char → Bool
  | [], _ => true
  | _ :: _, [] => false
  | p :: ps, h :: hs => p == h && leadsWith ps hs

/-- Substring test on character lists. -/
def hasSub (pat : List Char) : List Char → Bool
  | [] => pat.isEmpty
  | h :: t => leadsWith pat (h :: t) || hasSub pat t

/-- Model of Python's `pat in hay` on strings. -/
def pyContains (pat hay : String) : Bool :=
  hasSub pat.data hay.data

/-- The JSON value produced by `Runtime.evaluate` for the fetch expression:
either an object (dictionary) or something else (e.g. `None` when the
`result.value` path is absent). -/
inductive ResultVal where
  | dict (d : JDict) : ResultVal
  | nondict (descr : String) : ResultVal
deriving DecidableEq

/-- The relevant projection of the CDP response consumed by `_exec_fetch`:
optional `exceptionDetails`, and the `result.value` field. -/
structure CdpRes where
  exceptionDetails : Option String
  resultValue : Option ResultVal
deriving DecidableEq

/-- Embedding of `Client._exec_fetch` (client.py), as a function of the CDP
result the browser returns for the injected fetch script.  Exceptions are
modelled as `Except.error` values carrying the Python exception class:
* `exceptionDetails` present            → `RuntimeError`;
* result value absent or not a dict     → `RuntimeError`;
* dict with an `error` key containing `AbortError` → `TimeoutError`;
* dict with any other `error` string    → `RuntimeError` (fetch failed);
* dict failing structural validation    → `RuntimeError` (invalid structure);
* otherwise                             → the validated response dictionary.
(A non-string `error` value is modelled as the generic fetch failure.) -/
def exec_fetch (cdp : CdpRes) : Except PyError JDict :=
  match cdp.exceptionDetails with
  | some details => .error (.runtimeError ("JS Execution Error: " ++ details))
  | none =>
    match cdp.resultValue with
    | some (.dict d) =>
        (match lookupKV d "error" with
        | some (.s msg) =>
            if pyContains "AbortError" msg then
              .error (.timeoutError ("Request timed out"))
            else
              .error (.runtimeError ("Fetch failed: " ++ msg))
        | some _ => .error (.runtimeError "Fetch failed")
        | none =>
            match validate_data d with
            | some rd => .ok rd
            | none => .error (.runtimeError "Invalid fetch response structure"))
    | _ => .error (.runtimeError "Unexpected JS result type")

/-- Embedding of `Response.ok` (response.py) on the raw dictionary:
`status_code = raw_data.get("status", 0)`, then `200 <= status_code < 300`,
with a `TypeError`/`ValueError` from a non-numeric status caught and turned
into `False`. -/
def respOk (r : JDict) : Bool :=
  match lookupKV r "status" with
  | some (.n q) => decide (200 ≤ q) && decide (q < 300)
  | some _ => false
  | none => false

/-- Client configuration relevant to the pipeline: the (already
`rstrip("/")`-ed) base URL, if any. -/
structure ClientCfg where
  base_url : Option String

/-- Starts-with test for absolute URLs (`endpoint.startswith(("http://", "https://"))`). -/
def startsWithHttp (e : String) : Bool :=
  leadsWith "http://".data e.data || leadsWith "https://".data e.data

/-- Python `lstrip("/")`. -/
def lstripSlash (e : String) : String :=
  ⟨e.data.dropWhile (fun c => c == '/')⟩

/-- Embedding of `Client._resolve_url` (client.py).  `urljoin(base + "/", rel)`
is modelled as plain concatenation, which agrees with Python for the plain
relative path segments the client produces (base has no trailing slash, the
relative part no scheme and no parent-directory segments). -/
def resolve_url (cfg : ClientCfg) (endpoint : String) : String :=
  if startsWithHttp endpoint then endpoint
  else
    match cfg.base_url with
    | some b => b ++ "/" ++ lstripSlash endpoint
    | none => endpoint

/-- Model of `urllib.parse.urlencode` on pre-rendered string pairs
(percent-encoding elided: modelled for URL-safe keys and values). -/
def urlencode (p : List (String × String)) : String :=
  String.intercalate "&" (p.map (fun kv => kv.1 ++ "=" ++ kv.2))

/-- The query-appending step of `Client.request`: if `params` is truthy, append
`urlencode(params)` with `&` when the URL already has a `?`, else with `?`. -/
def withQuery (url : String) (params : Option (List (String × String))) : String :=
  match params with
  | none => url
  | some p =>
      if p.isEmpty then url
      else url ++ (if url.data.contains '?' then "&" else "?") ++ urlencode p

/-- Python `datetime.timedelta` (the fields entering `total_seconds()`). -/
structure Timedelta where
  days : Int
  seconds : Int
  microseconds : Int
deriving DecidableEq

/-- `timedelta.total_seconds()`. -/
def Timedelta.total_seconds (t : Timedelta) : ℚ :=
  (t.days : ℚ) * 86400 + (t.seconds : ℚ) + (t.microseconds : ℚ) / 1000000

/-- The `cache_ttl` argument of `Client.request`: raw seconds or a timedelta. -/
inductive CacheTtl where
  | secs (q : ℚ) : CacheTtl
  | delta (t : Timedelta) : CacheTtl
deriving DecidableEq

/-- The TTL normalization in `Client.request`: `total_seconds()` for a
timedelta, `float(...)` for a raw number. -/
def normalizeTtl : CacheTtl → ℚ
  | .secs q => q
  | .delta t => t.total_seconds

/-- The fetch-and-populate tail of `Client.request` when `cache_ttl` was given:
execute the fetch; on success, store the raw record under `key` iff the
response status is 2xx (`response.ok`); errors propagate and store nothing.
The third component records whether `_exec_fetch` was invoked. -/
def fetchAndStore (cdp : CdpRes) (st : CacheState) (now : ℚ) (key : String)
    (ttl : CacheTtl) : Except PyError JDict × CacheState × Bool :=
  match exec_fetch cdp with
  | .error e => (.error e, st, true)
  | .ok r =>
      if respOk r then (.ok r, cacheSet st now key r (normalizeTtl ttl), true)
      else (.ok r, st, true)

/-- The fetch tail of `Client.request` when `cache_ttl` is `None`: no cache
interaction at all. -/
def fetchNoStore (cdp : CdpRes) (st : CacheState) :
    Except PyError JDict × CacheState × Bool :=
  match exec_fetch cdp with
  | .error e => (.error e, st, true)
  | .ok r => (.ok r, st, true)

/-- Embedding of `Client.request` (client.py).  Resolves the endpoint, folds
the query parameters into the URL, and — when `cache_ttl` is given —
fingerprints `(method, full_url, None, data, json_data)` (query parameters are
*not* passed as a separate component), consults the cache, and on a truthy
cached value returns it without fetching.  Otherwise it fetches and, when
`cache_ttl` is given and the response is ok, stores the record with the
normalized TTL.  The browser is abstracted by the `cdp` environment value;
result components: outcome, cache state after the call, whether
`_exec_fetch` ran.  (`_ensure_cors_context` only navigates the browser and
touches neither the cache nor the fetch result; it is not modelled.) -/
def Client.request (cfg : ClientCfg) (st : CacheState) (now : ℚ) (cdp : CdpRes)
    (method endpoint : String) (params : Option (List (String × String)))
    (data json_data : Option JDict) (cache_ttl : Option CacheTtl) :
    Except PyError JDict × CacheState × Bool :=
  let full_url := withQuery (resolve_url cfg endpoint) params
  match cache_ttl with
  | none => fetchNoStore cdp st
  | some ttl =>
      let cache_key := generate_key method full_url none data json_data
      let got := cacheGet st now cache_key
      match got.1 with
      | some cached =>
          if cached.isEmpty then fetchAndStore cdp got.2 now cache_key ttl
          else (.ok cached, got.2, false)
      | none => fetchAndStore cdp got.2 now cache_key ttl

/-- A captured browser cookie as an attribute dictionary. -/
abbrev Cookie := List (String × JVal)

/-- The allowed cookie attributes (`allowed_keys` in `Client.wait_for_login`). -/
def allowed_keys : List String :=
  ["name", "value", "domain", "path", "expires", "size", "httpOnly",
   "secure", "sameSite", "priority"]

/-- The `clean_cookie.get("expires", 0) <= 0` test of the sanitizer.  An absent
`expires` takes the default `0`, hence nonpositive.  (A present non-numeric
`expires` would raise `TypeError` in the source — such cookies are outside
the model and mapped to `false` here.) -/
def cookieExpiresNonpos (c : Cookie) : Bool :=
  match lookupKV c "expires" with
  | some (.n q) => decide (q ≤ 0)
  | some _ => false
  | none => true

/-- Embedding of the cookie sanitization in `Client.wait_for_login`
(client.py): keep only allowed attributes, then remove `expires` entirely
when its value (default 0) is ≤ 0. -/
def sanitize_cookie (c : Cookie) : Cookie :=
  let clean := c.filter (fun kv => allowed_keys.contains kv.1)
  if cookieExpiresNonpos clean then clean.filter (fun kv => !(kv.1 == "expires"))
  else clean

/-- The browser-session state owned by the client that the handoff claims are
about: the headless flag (`self.headless`, applied by `_init_browser`) and
the cookies set in the session. -/
structure ClientState where
  headless : Bool
  cookies : List Cookie

/-- Embedding of `Client._restart_browser` (client.py): quit the old page
(errors ignored), settle, set `self.headless`, re-initialize.  Modelled as
total: a `BrowserInitError` from re-initialization would propagate, in which
case `wait_for_login` does not return at all. -/
def restart_browser (c : ClientState) (headless : Bool) : ClientState :=
  { c with headless := headless }

/-- Environment describing what the interactive browser does during a handoff:
the URL observed at each 1-second poll tick (`none` models a polling
exception, which the source logs and swallows), the cookies captured when the
success pattern fires at tick `i` (`none` models an exception during
capture, also swallowed), whether the initial navigation raises, and whether
the restore sub-sequence raises (swallowed). -/
structure HandoffEnv where
  urlAt : Nat → Option String
  cookiesAt : Nat → Option (List Cookie)
  navThrows : Bool
  restoreThrows : Bool

/-- The polling loop of `Client.wait_for_login`: at each tick, read the URL
(a polling error is swallowed and polling continues); on a `re.search` match
capture cookies (a capture error is swallowed and polling continues, since
the `break` after the capture is not reached); the loop exits with no
cookies when the time budget is exhausted.  `urlMatch` is the predicate
`re.search(success_pattern, ·)`. -/
def pollLoop (env : HandoffEnv) (urlMatch : String → Bool) :
    Nat → Nat → Option (List Cookie)
  | 0, _ => none
  | fuel + 1, i =>
      match env.urlAt i with
      | none => pollLoop env urlMatch fuel (i + 1)
      | some u =>
          if urlMatch u then
            match env.cookiesAt i with
            | some cs => some cs
            | none => pollLoop env urlMatch fuel (i + 1)
          else pollLoop env urlMatch fuel (i + 1)

/-- Embedding of `Client.wait_for_login` (client.py), the `initiateHandoff`
of the spec.  Restart into GUI mode; navigate (an exception jumps straight
to the `finally` block with nothing captured) and poll for up to
`timeout + 1` ticks; then — in the `finally` block, on every path — restart
back into headless mode; finally, if cookies were captured, sanitize and
install them (any restore failure is logged and swallowed, leaving the
session state otherwise intact). -/
def wait_for_login (c : ClientState) (env : HandoffEnv) (urlMatch : String → Bool)
    (timeout : Nat) : ClientState :=
  let cGui := restart_browser c false
  let captured : Option (List Cookie) :=
    if env.navThrows then none else pollLoop env urlMatch (timeout + 1) 0
  let cHeadless := restart_browser cGui true
  match captured with
  | none => cHeadless
  | some cs =>
      if env.restoreThrows then cHeadless
      else { cHeadless with cookies := cs.map sanitize_cookie }

/-- A record serialized from the typed structure passes structural validation. -/
lemma validBool_toDict (v : FetchResponseData) : validBool (toDict v) = true := rfl

/-- C3.  TTL semantics of the cache: an immediate `get` after `set` with
`ttl = 60` returns the stored record; after `set` with `ttl = -1` the entry
is already expired at the very same instant; after `set` with `ttl = 0.5`, a
`get` one second later finds the entry expired — because `set` computes
`expires_at = now + ttl` and `get` returns the value only when
`now < expires_at`. -/
theorem cache_ttl_semantics (s : CacheState) (now : ℚ) (k : String)
    (v : FetchResponseData) (w : JDict) :
    (cacheGet (cacheSet s now k (toDict v) 60) now k).1 = some (toDict v)
  ∧ (cacheGet (cacheSet s now k w (-1)) now k).1 = none
  ∧ (cacheGet (cacheSet s now k w (1/2)) (now + 1) k).1 = none := by
  refine ⟨?_, ?_, ?_⟩ <;>
    simp [cacheGet, cacheSet, findEntry, deleteKey, List.find?, validate_data,
      validBool_toDict] <;>
    norm_num

/-- C4.  An unexpired cache entry whose stored value is missing one of the
seven required ResponseRecord fields is never returned by `get`: the lookup
yields absent. -/
theorem cache_get_missing_field_absent (s : CacheState) (now : ℚ) (k rk : String)
    (d : JDict) (expiresAt : ℚ)
    (h1 : findEntry s k = some (d, expiresAt)) (h2 : now < expiresAt)
    (h3 : rk ∈ requiredKeys) (h4 : lookupKV d rk = none) :
    (cacheGet s now k).1 = none := by
  have h5 : d.any (fun kv => kv.1 == rk) = false := by
    rw [List.any_eq_false]
    intro kv hkv
    have h6 : d.find? (fun kv => kv.1 == rk) = none := by
      unfold lookupKV at h4
      exact Option.map_eq_none.mp h4
    exact List.find?_eq_none.mp h6 kv hkv
  have h7 : validBool d = false := by
    unfold validBool
    rw [List.all_eq_false]
    exact ⟨rk, h3, by simp [h5]⟩
  simp [cacheGet, h1, h2, validate_data, h7]

/-- A partial record (only `status`) for the C4 witness. -/
def partialDict : JDict := [("status", JVal.n 200)]

/-- A one-row store holding the partial record, unexpired until t = 10. -/
def partialStore : CacheState := [("k", partialDict, 10)]

/-- Witness for C4 at a concrete store: an unexpired entry missing
`statusText` is reported absent. -/
theorem cache_get_missing_field_absent_witness :
    findEntry partialStore "k" = some (partialDict, 10)
  ∧ (0 : ℚ) < 10
  ∧ "statusText" ∈ requiredKeys
  ∧ lookupKV partialDict "statusText" = none
  ∧ (cacheGet partialStore 0 "k").1 = none :=
  ⟨by decide, by norm_num, by decide, by decide,
    cache_get_missing_field_absent partialStore 0 "k" "statusText" partialDict 10
      (by decide) (by norm_num) (by decide) (by decide)⟩

/-- C9.  `clear_expired` deletes exactly the rows with `expires_at < now`
(strictly), keeping every other row; `clear_all` empties the table, so a
subsequent `get` of any key is absent. -/
theorem clear_expired_clear_all_semantics (s : CacheState) (now : ℚ)
    (e : CacheEntry) (k : String) :
    (e ∈ clear_expired s now ↔ e ∈ s ∧ ¬ e.2.2 < now)
  ∧ clear_all s = []
  ∧ (cacheGet (clear_all s) now k).1 = none := by
  refine ⟨?_, rfl, rfl⟩
  simp [clear_expired, List.mem_filter]

/-- Uppercasing is idempotent on a single character. -/
lemma pyCharUpper_idem (c : Char) : pyCharUpper (pyCharUpper c) = pyCharUpper c := by
  by_cases h : 97 ≤ c.toNat ∧ c.toNat ≤ 122
  · have e : pyCharUpper c = Char.ofNat (c.toNat - 32) := by
      unfold pyCharUpper; exact if_pos h
    have hne : ¬ (97 ≤ (Char.ofNat (c.toNat - 32)).toNat
        ∧ (Char.ofNat (c.toNat - 32)).toNat ≤ 122) := by
      obtain ⟨h1, h2⟩ := h
      generalize c.toNat = n at h1 h2 ⊢
      interval_cases n <;> decide
    rw [e]
    unfold pyCharUpper
    rw [if_neg hne]
  · have e : pyCharUpper c = c := by unfold pyCharUpper; exact if_neg h
    rw [e, e]

/-- Uppercasing is idempotent on strings. -/
lemma pyUpper_idem (s : String) : pyUpper (pyUpper s) = pyUpper s := by
  have hfe : pyCharUpper ∘ pyCharUpper = pyCharUpper := funext pyCharUpper_idem
  unfold pyUpper
  simp [List.map_map, hfe]

/-- C10.  The fingerprint is invariant under the letter case of the HTTP
method (`generate_key` uppercases it), and an empty mapping for `params`,
`data`, or `json_data` fingerprints identically to an absent (`None`) value
for that argument (both are falsy and serialize to the empty string). -/
theorem generate_key_case_and_empty_invariance (m u : String)
    (p d j : Option JDict) :
    generate_key m u p d j = generate_key (pyUpper m) u p d j
  ∧ generate_key m u (some []) d j = generate_key m u none d j
  ∧ generate_key m u p (some []) j = generate_key m u p none j
  ∧ generate_key m u p d (some []) = generate_key m u p d none := by
  refine ⟨?_, rfl, rfl, rfl⟩
  unfold generate_key
  rw [pyUpper_idem]

/-- C1.  Handoff post-condition: for every environment — success-pattern
match, timeout with no match, polling or cookie-capture errors, navigation
failure, restore failure — `wait_for_login` returns with the session in
headless (Automated) mode: the `finally` restart to headless runs on every
path and the restore phase never changes the mode. -/
theorem wait_for_login_headless_postcondition (c : ClientState)
    (env : HandoffEnv) (urlMatch : String → Bool) (timeout : Nat) :
    (wait_for_login c env urlMatch timeout).headless = true := by
  unfold wait_for_login
  cases hc : (if env.navThrows then (none : Option (List Cookie))
      else pollLoop env urlMatch (timeout + 1) 0) with
  | none => simp [hc, restart_browser]
  | some cs =>
      by_cases hr : env.restoreThrows <;> simp [hc, hr, restart_browser]

/-- Filtering by a predicate the sought element satisfies anyway does not
change the result of `find?`. -/
lemma find?_filter_of_keep {α : Type} (p q : α → Bool) (l : List α)
    (h : ∀ a, p a = true → q a = true) :
    (l.filter q).find? p = l.find? p := by
  induction l with
  | nil => rfl
  | cons a t ih =>
      rw [List.filter_cons]
      by_cases hq : q a = true
      · simp only [if_pos hq]
        by_cases hp : p a = true
        · rw [List.find?_cons_of_pos _ hp, List.find?_cons_of_pos _ hp]
        · rw [List.find?_cons_of_neg _ hp, List.find?_cons_of_neg _ hp, ih]
      · simp only [if_neg hq]
        have hp : ¬ p a = true := fun hpa => hq (h a hpa)
        rw [List.find?_cons_of_neg _ hp, ih]

/-- The attribute filter keeps every `expires` entry (`expires` is allowed),
so the `expires` lookup is unchanged by it. -/
lemma lookup_filter_allowed (c : Cookie) :
    lookupKV (c.filter (fun kv => allowed_keys.contains kv.1)) "expires"
      = lookupKV c "expires" := by
  unfold lookupKV
  rw [find?_filter_of_keep]
  intro kv hkv
  have he : kv.1 = "expires" := by simpa using hkv
  rw [he]
  decide

/-- Everything the sanitizer outputs comes from the attribute-filtered list,
in both branches of the `expires` pop. -/
lemma sanitize_subset_clean (c : Cookie) (kv : String × JVal)
    (h : kv ∈ sanitize_cookie c) :
    kv ∈ c.filter (fun kv => allowed_keys.contains kv.1) := by
  simp only [sanitize_cookie] at h
  split at h
  · exact (List.mem_filter.mp h).1
  · exact h

/-- C6.  For *every* captured cookie, every attribute surviving sanitization
is in the allowed set; and a cookie whose (numeric) `expires` value is ≤ 0
is restored with the `expires` field removed entirely. -/
theorem sanitize_cookie_allowed_and_expires (c : Cookie) :
    (∀ kv ∈ sanitize_cookie c, kv.1 ∈ allowed_keys)
  ∧ ∀ q : ℚ, lookupKV c "expires" = some (.n q) → q ≤ 0 →
      lookupKV (sanitize_cookie c) "expires" = none := by
  constructor
  · intro kv hkv
    have hcon := (List.mem_filter.mp (sanitize_subset_clean c kv hkv)).2
    simpa using hcon
  · intro q h1 h2
    have hnp : cookieExpiresNonpos
        (c.filter (fun kv => allowed_keys.contains kv.1)) = true := by
      unfold cookieExpiresNonpos
      rw [lookup_filter_allowed, h1]
      simpa using h2
    simp only [sanitize_cookie, hnp, if_pos]
    unfold lookupKV
    have hfind : List.find? (fun kv => kv.1 == "expires")
        (List.filter (fun kv => !(kv.1 == "expires"))
          (List.filter (fun kv => allowed_keys.contains kv.1) c)) = none := by
      rw [List.find?_eq_none]
      intro x hx
      have hne := (List.mem_filter.mp hx).2
      simpa using hne
    rw [hfind]
    rfl

/-- A captured cookie with an extraneous `tracker` attribute and `expires = 0`,
for the C6 witness. -/
def trackedCookie : Cookie :=
  [("name", JVal.s "sid"), ("tracker", JVal.s "x"), ("expires", JVal.n 0)]

/-- Witness for C6: on the concrete cookie, the attribute guarantee holds and
the inner hypotheses (`expires = 0`, `0 ≤ 0`) are discharged, yielding a
restored cookie without the extraneous attribute and without `expires`. -/
theorem sanitize_cookie_allowed_and_expires_witness :
    lookupKV trackedCookie "expires" = some (.n 0)
  ∧ (0 : ℚ) ≤ 0
  ∧ (∀ kv ∈ sanitize_cookie trackedCookie, kv.1 ∈ allowed_keys)
  ∧ lookupKV (sanitize_cookie trackedCookie) "expires" = none :=
  ⟨by decide, le_refl 0,
    (sanitize_cookie_allowed_and_expires trackedCookie).1,
    (sanitize_cookie_allowed_and_expires trackedCookie).2 0 (by decide) (le_refl 0)⟩

/-- A CDP result whose fetch value is missing required ResponseRecord fields
(a structural mismatch). -/
def cdpStructuralMismatch : CdpRes :=
  ⟨none, some (.dict [("status", JVal.n 200)])⟩

/-- A CDP result reporting a JS execution error (`exceptionDetails`). -/
def cdpJsException : CdpRes :=
  ⟨some "ReferenceError: x is not defined", none⟩

/-- C7 counterexample.  A structural mismatch and a script execution error
surface as the *same* exception kind (`RuntimeError`): a caller branching on
the error kind cannot distinguish them, contradicting the claim that
StructuralMismatch is kind-distinct from ExecutionFailure. -/
theorem exec_fetch_kind_counterexample :
    kindOf (exec_fetch cdpStructuralMismatch) = kindOf (exec_fetch cdpJsException)
  ∧ kindOf (exec_fetch cdpStructuralMismatch) = some PyKind.runtime
  ∧ kindOf (exec_fetch cdpJsException) = some PyKind.runtime :=
  ⟨rfl, rfl, rfl⟩

/-- C7 amended.  The timeout failure is surfaced as a distinct exception kind
(`TimeoutError`) from both execution failures and structural mismatches, but
a structural mismatch and a script execution error both surface as
`RuntimeError` — distinguishable only by message string, not by kind. -/
theorem exec_fetch_error_kinds (details msg : String) (d₁ d₂ : JDict)
    (h1 : lookupKV d₁ "error" = none) (h2 : validBool d₁ = false)
    (h3 : lookupKV d₂ "error" = some (.s msg))
    (h4 : pyContains "AbortError" msg = true) :
    kindOf (exec_fetch ⟨some details, none⟩) = some PyKind.runtime
  ∧ kindOf (exec_fetch ⟨none, some (.dict d₁)⟩) = some PyKind.runtime
  ∧ kindOf (exec_fetch ⟨none, some (.dict d₂)⟩) = some PyKind.timeout
  ∧ some PyKind.timeout ≠ some PyKind.runtime := by
  refine ⟨rfl, ?_, ?_, by decide⟩
  · simp [exec_fetch, h1, validate_data, h2, kindOf]
  · simp [exec_fetch, h3, h4, kindOf]

/-- Witness for the amended C7 at concrete CDP results. -/
theorem exec_fetch_error_kinds_witness :
    lookupKV [("status", JVal.n 200)] "error" = none
  ∧ validBool [("status", JVal.n 200)] = false
  ∧ lookupKV [("error", JVal.s "AbortError: aborted")] "error"
      = some (.s "AbortError: aborted")
  ∧ pyContains "AbortError" "AbortError: aborted" = true
  ∧ (kindOf (exec_fetch ⟨some "boom", none⟩) = some PyKind.runtime
      ∧ kindOf (exec_fetch ⟨none, some (.dict [("status", JVal.n 200)])⟩)
          = some PyKind.runtime
      ∧ kindOf (exec_fetch ⟨none, some (.dict [("error", JVal.s "AbortError: aborted")])⟩)
          = some PyKind.timeout
      ∧ some PyKind.timeout ≠ some PyKind.runtime) :=
  ⟨by decide, by decide, by decide, by decide,
    exec_fetch_error_kinds "boom" "AbortError: aborted"
      [("status", JVal.n 200)] [("error", JVal.s "AbortError: aborted")]
      (by decide) (by decide) (by decide) (by decide)⟩

/-- A value returned by `cacheGet` passed validation, hence holds all seven
required keys and in particular is a non-empty (truthy) dictionary. -/
lemma cacheGet_some_ne_nil (s : CacheState) (now : ℚ) (k : String) (r : JDict)
    (h : (cacheGet s now k).1 = some r) : r.isEmpty = false := by
  unfold cacheGet at h
  cases hf : findEntry s k with
  | none => rw [hf] at h; simp at h
  | some ve =>
      obtain ⟨v, expiresAt⟩ := ve
      rw [hf] at h
      dsimp only at h
      by_cases hlt : now < expiresAt
      · rw [if_pos hlt] at h
        simp only [validate_data] at h
        by_cases hv : validBool v = true
        · rw [if_pos hv] at h
          simp at h
          subst h
          cases v with
          | nil => exact absurd hv (by decide)
          | cons a t => rfl
        · rw [if_neg hv] at h; simp at h
      · rw [if_neg hlt] at h; simp at h

/-- C5.  When `cache_ttl` is given, `request` fingerprints the method, the
resolved URL with the query string already folded in, the form body and the
json body — passing `None` for the separate params component — and on a
cache hit returns the stored record with `_exec_fetch` never invoked. -/
theorem request_cache_hit_no_fetch (cfg : ClientCfg) (st : CacheState)
    (now : ℚ) (cdp : CdpRes) (m e : String)
    (p : Option (List (String × String))) (d j : Option JDict)
    (ttl : CacheTtl) (r : JDict) (st₁ : CacheState)
    (h : cacheGet st now
        (generate_key m (withQuery (resolve_url cfg e) p) none d j)
      = (some r, st₁)) :
    Client.request cfg st now cdp m e p d j (some ttl) = (.ok r, st₁, false) := by
  have hne : r.isEmpty = false :=
    cacheGet_some_ne_nil st now
      (generate_key m (withQuery (resolve_url cfg e) p) none d j) r (by rw [h])
  simp [Client.request, h, hne]

/-- A complete ResponseRecord dictionary (all seven fields), used as the
fetched/stored record in concrete witnesses. -/
def okRecord : JDict :=
  [("status", JVal.n 200), ("statusText", JVal.s "OK"),
   ("url", JVal.s "http://e.com/a"), ("headers", JVal.strMap []),
   ("text", JVal.s "hi"), ("redirected", JVal.b false),
   ("type", JVal.s "basic")]

/-- A CDP result whose fetch succeeded with `okRecord`. -/
def cdpOk : CdpRes := ⟨none, some (.dict okRecord)⟩

/-- A one-row store holding `okRecord` under the fingerprint of
`GET http://e.com/a` with no bodies, unexpired until t = 10. -/
def hitStore : CacheState :=
  [(generate_key "GET" "http://e.com/a" none none none, okRecord, 10)]

/-- Witness for C5: on the concrete store the request is answered from the
cache, the store is unchanged, and the fetch flag stays `false`. -/
theorem request_cache_hit_no_fetch_witness :
    cacheGet hitStore 0
        (generate_key "GET" (withQuery (resolve_url ⟨none⟩ "http://e.com/a") none)
          none none none)
      = (some okRecord, hitStore)
  ∧ Client.request ⟨none⟩ hitStore 0 cdpOk "GET" "http://e.com/a" none none none
        (some (.secs 60))
      = (.ok okRecord, hitStore, false) :=
  ⟨by decide,
    request_cache_hit_no_fetch ⟨none⟩ hitStore 0 cdpOk "GET" "http://e.com/a"
      none none none (.secs 60) okRecord hitStore (by decide)⟩

/-- C8.  After a cache miss, the pipeline stores the fetched record iff
`cache_ttl` was given and the status is 2xx (`respOk`), with the TTL
normalized to seconds (`normalizeTtl` accepts raw seconds and timedeltas);
with `cache_ttl` absent, or a non-2xx response, the store is untouched. -/
theorem request_store_iff_ok (cfg : ClientCfg) (st : CacheState) (now : ℚ)
    (cdp : CdpRes) (m e : String) (p : Option (List (String × String)))
    (d j : Option JDict) (ttl : CacheTtl) (r : JDict) (st₁ : CacheState)
    (h1 : cacheGet st now
        (generate_key m (withQuery (resolve_url cfg e) p) none d j)
      = (none, st₁))
    (h2 : exec_fetch cdp = .ok r) :
    Client.request cfg st now cdp m e p d j (some ttl)
      = (.ok r,
          (if respOk r then
            cacheSet st₁ now
              (generate_key m (withQuery (resolve_url cfg e) p) none d j) r
              (normalizeTtl ttl)
          else st₁), true)
  ∧ Client.request cfg st now cdp m e p d j none = (.ok r, st, true) := by
  constructor
  · by_cases hok : respOk r = true <;>
      simp [Client.request, h1, fetchAndStore, h2, hok]
  · simp [Client.request, fetchNoStore, h2]

/-- Witness for C8: on the empty store, a successful 200 fetch is stored when
a TTL is given and not stored when caching is off. -/
theorem request_store_iff_ok_witness :
    cacheGet [] 0
        (generate_key "GET" (withQuery (resolve_url ⟨none⟩ "http://e.com/a") none)
          none none none)
      = (none, [])
  ∧ exec_fetch cdpOk = .ok okRecord
  ∧ (Client.request ⟨none⟩ [] 0 cdpOk "GET" "http://e.com/a" none none none
        (some (.secs 60))
      = (.ok okRecord,
          (if respOk okRecord then
            cacheSet [] 0
              (generate_key "GET"
                (withQuery (resolve_url ⟨none⟩ "http://e.com/a") none)
                none none none) okRecord (normalizeTtl (.secs 60))
          else []), true)
      ∧ Client.request ⟨none⟩ [] 0 cdpOk "GET" "http://e.com/a" none none none none
        = (.ok okRecord, [], true)) :=
  ⟨by decide, rfl,
    request_store_iff_ok ⟨none⟩ [] 0 cdpOk "GET" "http://e.com/a" none none none
      (.secs 60) okRecord [] (by decide) rfl⟩

/-- Splitting at the first delimiter is unambiguous when neither left part
contains the delimiter. -/
lemma append_pipe_inj : ∀ (a c b d : List Char),
    '|' ∉ a → '|' ∉ c → a ++ '|' :: b = c ++ '|' :: d → a = c ∧ b = d := by
  intro a
  induction a with
  | nil =>
      intro c b d _ hc h
      cases c with
      | nil => simpa using h
      | cons x xs =>
          simp only [List.nil_append, List.cons_append, List.cons.injEq] at h
          obtain ⟨h1, _⟩ := h
          rw [← h1] at hc
          simp at hc
  | cons x xs ih =>
      intro c b d ha hc h
      cases c with
      | nil =>
          simp only [List.nil_append, List.cons_append, List.cons.injEq] at h
          obtain ⟨h1, _⟩ := h
          rw [h1] at ha
          simp at ha
      | cons y ys =>
          simp only [List.cons_append, List.cons.injEq] at h
          obtain ⟨h1, h2⟩ := h
          have ha' : '|' ∉ xs := fun hm => ha (List.mem_cons_of_mem _ hm)
          have hc' : '|' ∉ ys := fun hm => hc (List.mem_cons_of_mem _ hm)
          obtain ⟨e1, e2⟩ := ih ys b d ha' hc' h2
          exact ⟨by rw [h1, e1], e2⟩

/-- The raw fingerprint string laid out at the character level. -/
lemma generate_key_data (m u : String) (p d j : Option JDict) :
    (generate_key m u p d j).data
      = (pyUpper m).data ++ '|' :: (u.data ++ '|' :: ((normSer p).data
          ++ '|' :: ((normSer d).data ++ '|' :: (normSer j).data))) := by
  have hp : "|".data = ['|'] := rfl
  simp [generate_key, String.data_append, hp, List.append_assoc]

/-- C2 counterexample.  Changing the method from `"get"` to `"GET"` — a
change of a single argument — leaves the fingerprint unchanged, because
`generate_key` uppercases the method before hashing; the sensitivity half of
the claim is therefore false as stated. -/
theorem generate_key_sensitivity_counterexample :
    generate_key "get" "http://e.com/a" none none none
      = generate_key "GET" "http://e.com/a" none none none
  ∧ "get" ≠ "GET" :=
  ⟨by decide, by decide⟩

/-- C2 amended.  Determinism is immediate (the fingerprint is a pure function
of the arguments).  Sensitivity holds in this corrected form: provided no
component — uppercased method, url, or a body's canonical serialization —
contains the delimiter `|`, the fingerprint determines the uppercased
method, the url, and the canonical serializations of the three bodies.
Hence changing the method other than by letter case, changing the url, or
changing a body in a way that changes its canonical serialization (empty
and absent bodies being identified) changes the fingerprint. -/
theorem generate_key_components_injective
    (m₁ u₁ m₂ u₂ : String) (p₁ d₁ j₁ p₂ d₂ j₂ : Option JDict)
    (hm₁ : pipeFree (pyUpper m₁)) (hm₂ : pipeFree (pyUpper m₂))
    (hu₁ : pipeFree u₁) (hu₂ : pipeFree u₂)
    (hp₁ : pipeFree (normSer p₁)) (hp₂ : pipeFree (normSer p₂))
    (hd₁ : pipeFree (normSer d₁)) (hd₂ : pipeFree (normSer d₂))
    (h : generate_key m₁ u₁ p₁ d₁ j₁ = generate_key m₂ u₂ p₂ d₂ j₂) :
    pyUpper m₁ = pyUpper m₂ ∧ u₁ = u₂ ∧ normSer p₁ = normSer p₂
  ∧ normSer d₁ = normSer d₂ ∧ normSer j₁ = normSer j₂ := by
  have hdata := congrArg String.data h
  rw [generate_key_data, generate_key_data] at hdata
  obtain ⟨e1, rest1⟩ := append_pipe_inj _ _ _ _ hm₁ hm₂ hdata
  obtain ⟨e2, rest2⟩ := append_pipe_inj _ _ _ _ hu₁ hu₂ rest1
  obtain ⟨e3, rest3⟩ := append_pipe_inj _ _ _ _ hp₁ hp₂ rest2
  obtain ⟨e4, e5⟩ := append_pipe_inj _ _ _ _ hd₁ hd₂ rest3
  exact ⟨String.ext e1, String.ext e2, String.ext e3, String.ext e4,
    String.ext e5⟩

/-- Witness for the amended C2 at concrete inputs: two equal fingerprints
with `'|'`-free components force componentwise equality (here for the
case-colliding methods `"get"` and `"GET"`). -/
theorem generate_key_components_injective_witness :
    pipeFree (pyUpper "get") ∧ pipeFree (pyUpper "GET")
  ∧ pipeFree "http://e.com/a" ∧ pipeFree (normSer (none : Option JDict))
  ∧ generate_key "get" "http://e.com/a" none none none
      = generate_key "GET" "http://e.com/a" none none none
  ∧ (pyUpper "get" = pyUpper "GET" ∧ "http://e.com/a" = "http://e.com/a"
      ∧ normSer (none : Option JDict) = normSer (none : Option JDict)
      ∧ normSer (none : Option JDict) = normSer (none : Option JDict)
      ∧ normSer (none : Option JDict) = normSer (none : Option JDict)) :=
  ⟨by decide, by decide, by decide, by decide, by decide,
    generate_key_components_injective "get" "http://e.com/a" "GET" "http://e.com/a"
      none none none none none none
      (by decide) (by decide) (by decide) (by decide) (by decide) (by decide)
      (by decide) (by decide) (by decide)⟩
